import Mathlib

/-!
Verification of the entity-extraction and normalization engine of the
animal_detection repository against its natural-language specification.

The shallow embedding below translates the Python sources
`backend/verify_animal_detection.py` (class `AnimalDetector`),
`backend/ai/excel_agent.py` (method `ExcelParser._detect_animals`),
`backend/ai/utils.py` (`normalize_location_name`) and
`backend/ai/filter_utils.py` (`extract_species_from_compound_name`)
into executable Lean definitions over `List Char` (Python `str` values in
the sources are ASCII throughout the data the engine handles).

Python semantics modelled here:
- `str.lower`, `str.title`, `str.capitalize`, `str.strip`, `str.split`,
  `in` (substring test) are reimplemented for ASCII character lists;
- the regular expression `({animals})(?:\s+\w+){0,3}\s+({products})` used by
  both detector implementations is modelled by a dedicated backtracking
  matcher specialised to exactly this pattern shape: alternatives are tried
  in list order (leftmost alternative wins, as in Python `re`), the counted
  filler group is greedy (3 fillers tried first, then 2, 1, 0), and `findall`
  scans left to right producing non-overlapping matches.  Because `\s` and
  `\w` character classes are disjoint and the product literals start with
  word characters, each `\s+`/`\w+` run is forced to be maximal, which the
  matcher exploits;
- `re.search("\b" ++ term ++ "\b", text)` is modelled by `hasBoundary`;
  every lexicon term starts and ends with a `\w` character, so the boundary
  condition is exactly "preceded by start-of-text or a non-word character,
  followed by end-of-text or a non-word character";
- Python `set` values are modelled by duplicate-free lists; the final
  `sorted(list(set(...)))` is modelled by sorted duplicate-free insertion
  using the lexicographic order on `List Char`, which agrees with Python
  string comparison on ASCII data.
-/

namespace AnimalDetection

/-- Character lists standing for Python strings. -/
abbrev Str := List Char

/-- Python `\s` for the ASCII range (space, tab, newline, CR, VT, FF). -/
def isWs (c : Char) : Bool :=
  c == ' ' || c == '\t' || c == '\n' || c == '\r' || c == '\x0b' || c == '\x0c'

/-- Python `\w` for the ASCII range: letters, digits and underscore. -/
def isWordChar (c : Char) : Bool :=
  c.isAlphanum || c == '_'

/-- ASCII lowercase of one character (Python `str.lower` on ASCII data). -/
def lowerC (c : Char) : Char :=
  if 65 ≤ c.toNat ∧ c.toNat ≤ 90 then Char.ofNat (c.toNat + 32) else c

/-- ASCII uppercase of one character. -/
def upperC (c : Char) : Char :=
  if 97 ≤ c.toNat ∧ c.toNat ≤ 122 then Char.ofNat (c.toNat - 32) else c

/-- Python `str.lower` on ASCII data. -/
def lowerStr (s : Str) : Str := s.map lowerC

/-- Python `str.strip()` (remove leading and trailing whitespace). -/
def stripStr (s : Str) : Str :=
  ((s.dropWhile isWs).reverse.dropWhile isWs).reverse

/-- Python `str.title()` on ASCII data: a letter is uppercased when the
previous character is not a letter, lowercased otherwise (ASCII letters are
exactly the cased characters of the data handled here).  The boolean argument
records whether the previous character was cased. -/
def titleAux : Bool → Str → Str
  | _, [] => []
  | prevCased, c :: cs =>
    (if c.isAlpha then (if prevCased then lowerC c else upperC c) else c)
      :: titleAux c.isAlpha cs

/-- Python `str.title()` on ASCII data. -/
def titleStr (s : Str) : Str := titleAux false s

/-- Python `str.capitalize()` on ASCII data: first character uppercased, the
rest lowercased. -/
def capitalizeStr : Str → Str
  | [] => []
  | c :: cs => upperC c :: cs.map lowerC

/-- Whether `p` is a literal prefix of `t`. -/
def isPfx : Str → Str → Bool
  | [], _ => true
  | _ :: _, [] => false
  | a :: as, b :: bs => a == b && isPfx as bs

/-- Whether `p` is a literal suffix of `t` (Python `str.endswith`). -/
def isSfx (p t : Str) : Bool := isPfx p.reverse t.reverse

/-- Python substring test `needle in hay`. -/
def containsSub (needle : Str) : Str → Bool
  | [] => isPfx needle []
  | c :: t => isPfx needle (c :: t) || containsSub needle t

/-- Sentence separators of `re.split(r"[.!?]+", ...)`. -/
def isSentSep (c : Char) : Bool := c == '.' || c == '!' || c == '?'

/-- Python `re.split(r"[.!?]+", text)`: pieces between maximal runs of
sentence separators, keeping empty pieces at the ends.  The fuel argument is
an upper bound on the number of characters still to be consumed; it is always
called with enough fuel (`text.length + 1`). -/
def splitSentAux : Nat → Str → Str → List Str
  | 0, acc, _ => [acc.reverse]
  | _ + 1, acc, [] => [acc.reverse]
  | fuel + 1, acc, c :: rest =>
    if isSentSep c then acc.reverse :: splitSentAux fuel [] (rest.dropWhile isSentSep)
    else splitSentAux fuel (c :: acc) rest

/-- Python `re.split(r"[.!?]+", text)`. -/
def splitSent (t : Str) : List Str := splitSentAux (t.length + 1) [] t

/-- Python `" ".join(parts)`. -/
def joinSpace : List Str → Str
  | [] => []
  | [s] => s
  | s :: rest => s ++ ' ' :: joinSpace rest

/-- Python `str.split()` (split on whitespace runs, no empty words); fueled
like `splitSentAux`. -/
def splitWsAux : Nat → Str → List Str
  | 0, _ => []
  | _ + 1, [] => []
  | fuel + 1, c :: rest =>
    if isWs c then splitWsAux fuel rest
    else ((c :: rest).takeWhile (fun d => !isWs d))
      :: splitWsAux fuel ((c :: rest).dropWhile (fun d => !isWs d))

/-- Python `str.split()`. -/
def splitWs (t : Str) : List Str := splitWsAux (t.length + 1) t

/-- Python `text.split(sep)[0]`: the prefix of `text` before the first
occurrence of `sep` (the whole text when `sep` does not occur). -/
def splitBefore (sep : Str) : Str → Str
  | [] => []
  | c :: rest => if isPfx sep (c :: rest) then [] else c :: splitBefore sep rest

/-- Consume one maximal nonempty run of characters satisfying `p`; `none`
when the text does not start with such a character. -/
def consumeRun (p : Char → Bool) : Str → Option Str
  | [] => none
  | c :: rest => if p c then some (rest.dropWhile p) else none

/-- Consume `k` filler groups `\s+\w+` (each one maximal whitespace run then
maximal word-character run, both nonempty). -/
def consumeFillers : Nat → Str → Option Str
  | 0, t => some t
  | k + 1, t =>
    match consumeRun isWs t with
    | none => none
    | some t1 =>
      match consumeRun isWordChar t1 with
      | none => none
      | some t2 => consumeFillers k t2

/-- First literal of `lits` (in list order, as Python alternation) that is a
prefix of `t`, together with the rest of the text after it. -/
def firstLit : List Str → Str → Option (Str × Str)
  | [], _ => none
  | l :: ls, t => if isPfx l t then some (l, t.drop l.length) else firstLit ls t

/-- Try to match `(?:\s+\w+){k}\s+({products})` at `t`; on success returns
the filler count, the matched product literal and the rest of the text. -/
def tryTail (products : List Str) (k : Nat) (t : Str) : Option (Nat × Str × Str) :=
  match consumeFillers k t with
  | none => none
  | some t1 =>
    match consumeRun isWs t1 with
    | none => none
    | some t2 =>
      match firstLit products t2 with
      | none => none
      | some (p, rest) => some (k, p, rest)

/-- Greedy counted group: try three fillers first, then two, one, zero, as
Python `(?:\s+\w+){0,3}` does. -/
def matchRest (products : List Str) (t : Str) : Option (Nat × Str × Str) :=
  (tryTail products 3 t).orElse fun _ =>
    (tryTail products 2 t).orElse fun _ =>
      (tryTail products 1 t).orElse fun _ => tryTail products 0 t

/-- Try every animal alternative in list order at the current position; an
alternative that matches locally but makes the rest of the pattern fail is
backtracked, as in Python `re`. -/
def matchAtAux (products : List Str) (t : Str) : List Str → Option (Str × Nat × Str × Str)
  | [] => none
  | a :: as =>
    if isPfx a t then
      match matchRest products (t.drop a.length) with
      | some (k, p, rest) => some (a, k, p, rest)
      | none => matchAtAux products t as
    else matchAtAux products t as

/-- Attempt the composite pattern at the start of `t`. -/
def matchAt (animals products : List Str) (t : Str) : Option (Str × Nat × Str × Str) :=
  matchAtAux products t animals

/-- `re.findall` scan for the composite pattern: leftmost matches, continuing
after the end of each match (non-overlapping).  Each reported match is
(animal literal, filler-token count, product literal); fueled by the length
of the text, every step consuming at least one character. -/
def findallAux (animals products : List Str) : Nat → Str → List (Str × Nat × Str)
  | 0, _ => []
  | _ + 1, [] => []
  | fuel + 1, c :: rest =>
    match matchAt animals products (c :: rest) with
    | some (a, k, p, restAfter) => (a, k, p) :: findallAux animals products fuel restAfter
    | none => findallAux animals products fuel rest

/-- All matches of `({animals})(?:\s+\w+){0,3}\s+({products})` in `t`. -/
def compositeMatches (animals products : List Str) (t : Str) : List (Str × Nat × Str) :=
  findallAux animals products t.length t

/-- Whether the word `w` occurs in `t` at the current position with `\b` on
both sides, given whether the character before the position is a word
character (`w` starts and ends with word characters for every lexicon term). -/
def boundaryHere (w : Str) (prevIsWord : Bool) (t : Str) : Bool :=
  !prevIsWord && isPfx w t &&
    (match t.drop w.length with
     | [] => true
     | c :: _ => !isWordChar c)

/-- Scan for a word-boundary occurrence of `w`. -/
def boundaryAux (w : Str) : Bool → Str → Bool
  | _, [] => false
  | prevIsWord, c :: rest =>
    boundaryHere w prevIsWord (c :: rest) || boundaryAux w (isWordChar c) rest

/-- Python `re.search(r"\b" + re.escape(w) + r"\b", t)` for nonempty `w`
starting and ending with word characters. -/
def hasBoundary (w t : Str) : Bool := boundaryAux w false t

/-- Keep the first occurrence of each string, dropping later duplicates
(list-as-set with deterministic order). -/
def dedupAux : List Str → List Str → List Str
  | _, [] => []
  | seen, x :: xs =>
    if x ∈ seen then dedupAux seen xs else x :: dedupAux (x :: seen) xs

/-- Duplicate-free version of a candidate list, keeping first occurrences. -/
def dedupKeepFirst (l : List Str) : List Str := dedupAux [] l

/-- Insert into a list sorted by non-increasing length, after all entries of
greater or equal length (Python `sorted(key=len, reverse=True)` is a stable
sort by length; ties never influence the deduplication result because two
distinct strings of equal length cannot contain one another). -/
def insLen (x : Str) : List Str → List Str
  | [] => [x]
  | y :: ys => if y.length < x.length then x :: y :: ys else y :: insLen x ys

/-- Sort candidates by non-increasing length. -/
def sortLen : List Str → List Str
  | [] => []
  | x :: xs => insLen x (sortLen xs)

/-- The greedy containment-suppression walk of `AnimalDetector.detect`:
accept a candidate only when it is not a substring of an already accepted
(longer) candidate. -/
def uniqueFold : List Str → List Str → List Str
  | kept, [] => kept
  | kept, c :: cs =>
    if kept.any (fun e => containsSub c e) then uniqueFold kept cs
    else uniqueFold (kept ++ [c]) cs

/-- Insert into a sorted duplicate-free list using the lexicographic order on
`List Char`, which coincides with Python string comparison on ASCII data;
duplicates are dropped, so the result models `sorted(list(set(...)))`. -/
def insLex (x : Str) : List Str → List Str
  | [] => [x]
  | y :: ys =>
    if x = y then y :: ys
    else if x < y then x :: y :: ys
    else y :: insLex x ys

/-- Sorted duplicate-free list of the members of `l`
(Python `sorted(list(set(l)))`). -/
def sortedDedup : List Str → List Str
  | [] => []
  | x :: xs => insLex x (sortedDedup xs)

/-- Python `list.remove`: drop the first occurrence of `x`. -/
def eraseStr (x : Str) : List Str → List Str
  | [] => []
  | y :: ys => if y = x then ys else y :: eraseStr x ys

/-- Shorthand turning a string literal into its character list. -/
def s (x : String) : Str := x.data

namespace Verify

/-- `AnimalDetector.ANIMALS` (verify_animal_detection.py). -/
def ANIMALS : List Str := [
  s "elephant", s "elephants", s "tusker", s "tuskers",
  s "tiger", s "tigers", s "leopard", s "leopards", s "panther",
  s "rhino", s "rhinoceros", s "rhinos",
  s "pangolin", s "pangolins", s "scaly anteater",
  s "bear", s "bears", s "sloth bear", s "sun bear", s "polar bear",
  s "deer", s "deers", s "sambar", s "chital", s "spotted deer", s "muntjac", s "axis deer",
  s "otter", s "otters",
  s "primate", s "primates", s "monkey", s "monkeys", s "macaque", s "gibbon", s "langur",
  s "seal", s "seals", s "walrus", s "walruses", s "narwhal",
  s "whale", s "whales", s "dolphin", s "porpoise",
  s "crocodile", s "alligator",
  s "snake", s "snakes", s "cobra", s "cobras", s "python", s "pythons", s "viper", s "vipers",
  s "turtle", s "turtles", s "tortoise", s "tortoises", s "sea turtle", s "sea turtles",
  s "shark", s "sharks", s "manta ray", s "manta rays", s "ray", s "rays", s "skate", s "skates",
  s "seahorse", s "sea cucumber", s "sea cucumbers",
  s "scorpion", s "scorpions", s "butterfly", s "butterflies", s "beetle", s "beetles",
  s "live animal", s "live_animal", s "captive", s "alive", s "juvenile", s "hatchling", s "chick", s "chicks",
  s "carcasses", s "dead animal", s "dead_animal"]

/-- `AnimalDetector.BIRDS`. -/
def BIRDS : List Str := [
  s "eagle", s "eagles", s "hawk", s "hawks", s "vulture", s "vultures", s "osprey",
  s "parrot", s "parrots", s "cockatoo", s "cockatoos", s "macaw", s "macaws",
  s "peacock", s "peafowl",
  s "hornbill", s "hornbills",
  s "myna", s "mynas", s "hill myna", s "hill mynas",
  s "migratory bird", s "migratory birds", s "waterfowl", s "duck", s "ducks", s "goose", s "geese",
  s "live bird", s "live_bird", s "bird eggs", s "egg", s "eggs"]

/-- `AnimalDetector.PRODUCTS`. -/
def PRODUCTS : List Str := [
  s "tusk", s "tusks", s "ivory", s "elephant tusk", s "elephant tusks",
  s "horn", s "horns", s "rhino horn", s "rhino horns",
  s "antler", s "antlers",
  s "skin", s "skins", s "pelt", s "pelts", s "fur", s "furs", s "hide", s "hides", s "leather",
  s "meat", s "bushmeat", s "carcass", s "carcasses",
  s "bone", s "bones", s "skeleton", s "skull", s "teeth", s "tooth", s "molar", s "claw", s "claws",
  s "feather", s "feathers", s "down",
  s "scale", s "scales", s "pangolin scales",
  s "shell", s "shells", s "turtle shell", s "tortoise shell",
  s "gill raker", s "gill rakers", s "baleen", s "whale bone",
  s "bile", s "gallbladder", s "organs", s "liver", s "heart", s "genitals",
  s "skin fragment", s "preserved skin", s "preserved_skin",
  s "trophy", s "taxidermy", s "mounted head",
  s "shark fin", s "shark fins", s "shark_fin",
  s "beche-de-mer", s "beche_de_mer",
  s "coral", s "live coral",
  s "live specimen", s "live_specimen", s "live reptile", s "live_reptile",
  s "handicraft", s "ornament", s "jewelry", s "carved ivory", s "carved_horn"]

/-- `AnimalDetector.CONTEXT_SIGNALS`. -/
def CONTEXT_SIGNALS : List Str := [
  s "seizure", s "seized", s "confiscated", s "confiscation", s "arrested", s "arrest",
  s "smuggled", s "smuggling", s "trafficked", s "trafficking", s "poached", s "poaching",
  s "killed", s "die", s "died", s "dead", s "death", s "carcass", s "remains", s "found", s "discovered",
  s "carrying", s "possession", s "trading", s "selling", s "bought", s "market"]

/-- `AnimalDetector.NORMALIZATION_MAP` as an association list in source
order (Python dict keys are unique here, so `get` is first-match lookup). -/
def NORMALIZATION_MAP : List (Str × Str) := [
  (s "tusker", s "Asian Elephant"), (s "tuskers", s "Asian Elephant"),
  (s "elephant", s "Asian Elephant"), (s "elephants", s "Asian Elephant"),
  (s "tiger", s "Royal Bengal Tiger"), (s "tigers", s "Royal Bengal Tiger"),
  (s "leopard", s "Leopard"), (s "leopards", s "Leopard"), (s "panther", s "Leopard"),
  (s "rhino", s "Rhinoceros"), (s "rhinoceros", s "Rhinoceros"),
  (s "pangolin", s "Pangolin"), (s "pangolins", s "Pangolin"), (s "scaly anteater", s "Pangolin"),
  (s "bear", s "Bear"), (s "sloth bear", s "Sloth Bear"),
  (s "deer", s "Deer"), (s "spotted deer", s "Spotted Deer"), (s "barking deer", s "Barking Deer"),
  (s "sambar", s "Sambar Deer"),
  (s "snake", s "Snake"), (s "cobra", s "Cobra"), (s "python", s "Python"),
  (s "turtle", s "Turtle"), (s "tortoise", s "Tortoise"),
  (s "skin", s "Animal Skin"), (s "skins", s "Animal Skin"), (s "hide", s "Animal Skin"),
  (s "ivory", s "Ivory"), (s "tusk", s "Ivory"), (s "tusks", s "Ivory")]

/-- First-match association lookup (Python `dict` access for unique keys). -/
def lookupMap (m : List (Str × Str)) (k : Str) : Option Str :=
  (m.find? (fun kv => kv.1 == k)).map (fun kv => kv.2)

/-- `description.replace("\n", " ").strip()`. -/
def descriptionClean (d : String) : Str :=
  stripStr (d.data.map (fun c => if c == '\n' then ' ' else c))

/-- `re.split(r"[.!?]+", description_clean)`. -/
def sentences (d : String) : List Str := splitSent (descriptionClean d)

/-- Whether a sentence qualifies for scanning: its lowercase form contains a
context signal or a product term as a substring. -/
def qualifies (sent : Str) : Bool :=
  CONTEXT_SIGNALS.any (fun t => containsSub t (lowerStr sent)) ||
    PRODUCTS.any (fun t => containsSub t (lowerStr sent))

/-- The qualifying sentences, in original order. -/
def relevantParts (d : String) : List Str := (sentences d).filter qualifies

/-- `text_to_scan`: the qualifying sentences joined by a space and lowercased,
or the whole original narrative lowercased when none qualifies. -/
def textToScan (d : String) : Str :=
  if relevantParts d = [] then lowerStr d.data else lowerStr (joinSpace (relevantParts d))

/-- Standalone-product pass: every product term occurring as a substring. -/
def productCandidates (d : String) : List Str :=
  PRODUCTS.filter (fun p => containsSub p (textToScan d))

/-- Composite pass: `f"{animal} {product}"` for every match of the composite
regular expression. -/
def compositeCandidates (d : String) : List Str :=
  (compositeMatches ANIMALS PRODUCTS (textToScan d)).map (fun m => m.1 ++ ' ' :: m.2.2)

/-- Standalone animal/bird pass with word boundaries. -/
def animalCandidates (d : String) : List Str :=
  (ANIMALS ++ BIRDS).filter (fun a => hasBoundary a (textToScan d))

/-- `raw_candidates` as a duplicate-free list (the source stores a `set`). -/
def rawCandidates (d : String) : List Str :=
  dedupKeepFirst (productCandidates d ++ compositeCandidates d ++ animalCandidates d)

/-- Verification filter: keep candidates occurring literally in the text. -/
def verifiedCandidates (d : String) : List Str :=
  (rawCandidates d).filter (fun c => containsSub c (textToScan d))

/-- `unique_items`: greedy containment suppression over the candidates in
non-increasing length order. -/
def uniqueItems (d : String) : List Str :=
  uniqueFold [] (sortLen (verifiedCandidates d))

/-- Canonical mapping of one kept candidate: `NORMALIZATION_MAP` value when
present, title-cased form otherwise. -/
def mapLabel (item : Str) : Str :=
  match lookupMap NORMALIZATION_MAP item with
  | some v => v
  | none => titleStr item

/-- `final_output` (before sorting; the source stores a `set`). -/
def finalOutput (d : String) : List Str := (uniqueItems d).map mapLabel

/-- `result_list = sorted(list(final_output))`. -/
def sortedFinal (d : String) : List Str := sortedDedup (finalOutput d)

/-- `has_specific_skin`: some label contains "Skin" and differs from the
generic "Animal Skin". -/
def hasSpecificSkin (l : List Str) : Bool :=
  l.any (fun x => containsSub (s "Skin") x && x != s "Animal Skin")

/-- The final label list after generic-skin suppression. -/
def resultList (d : String) : List Str :=
  if hasSpecificSkin (sortedFinal d) = true ∧ s "Animal Skin" ∈ sortedFinal d then
    eraseStr (s "Animal Skin") (sortedFinal d)
  else sortedFinal d

/-- `AnimalDetector.detect` up to the final string join: `none` for a falsy
(empty) narrative, otherwise the sorted deduplicated label list. -/
def detectList (d : String) : Option (List String) :=
  if d.data = [] then none else some ((resultList d).map (fun cs => String.mk cs))

/-- `AnimalDetector.detect` (verify_animal_detection.py, lines 118-217):
the labels joined by ", ". -/
def detect (d : String) : Option String :=
  (detectList d).map (fun l => String.intercalate ", " l)

end Verify

namespace Excel

/-- `ExcelParser._detect_animals` ANIMALS list (excel_agent.py): identical to
the `AnimalDetector` list except for the extra singular "carcass" entry. -/
def ANIMALS : List Str := [
  s "elephant", s "elephants", s "tusker", s "tuskers",
  s "tiger", s "tigers", s "leopard", s "leopards", s "panther",
  s "rhino", s "rhinoceros", s "rhinos",
  s "pangolin", s "pangolins", s "scaly anteater",
  s "bear", s "bears", s "sloth bear", s "sun bear", s "polar bear",
  s "deer", s "deers", s "sambar", s "chital", s "spotted deer", s "muntjac", s "axis deer",
  s "otter", s "otters",
  s "primate", s "primates", s "monkey", s "monkeys", s "macaque", s "gibbon", s "langur",
  s "seal", s "seals", s "walrus", s "walruses", s "narwhal",
  s "whale", s "whales", s "dolphin", s "porpoise",
  s "crocodile", s "alligator",
  s "snake", s "snakes", s "cobra", s "cobras", s "python", s "pythons", s "viper", s "vipers",
  s "turtle", s "turtles", s "tortoise", s "tortoises", s "sea turtle", s "sea turtles",
  s "shark", s "sharks", s "manta ray", s "manta rays", s "ray", s "rays", s "skate", s "skates",
  s "seahorse", s "sea cucumber", s "sea cucumbers",
  s "scorpion", s "scorpions", s "butterfly", s "butterflies", s "beetle", s "beetles",
  s "live animal", s "live_animal", s "captive", s "alive", s "juvenile", s "hatchling", s "chick", s "chicks",
  s "carcass", s "carcasses", s "dead animal", s "dead_animal"]

/-- `ExcelParser._detect_animals` BIRDS list: character-for-character the
same literal list as `AnimalDetector.BIRDS` in the source. -/
def BIRDS : List Str := Verify.BIRDS

/-- `ExcelParser._detect_animals` PRODUCTS list: identical to the
`AnimalDetector` list except that it lacks the "carcass" and "carcasses"
entries. -/
def PRODUCTS : List Str := [
  s "tusk", s "tusks", s "ivory", s "elephant tusk", s "elephant tusks",
  s "horn", s "horns", s "rhino horn", s "rhino horns",
  s "antler", s "antlers",
  s "skin", s "skins", s "pelt", s "pelts", s "fur", s "furs", s "hide", s "hides", s "leather",
  s "meat", s "bushmeat",
  s "bone", s "bones", s "skeleton", s "skull", s "teeth", s "tooth", s "molar", s "claw", s "claws",
  s "feather", s "feathers", s "down",
  s "scale", s "scales", s "pangolin scales",
  s "shell", s "shells", s "turtle shell", s "tortoise shell",
  s "gill raker", s "gill rakers", s "baleen", s "whale bone",
  s "bile", s "gallbladder", s "organs", s "liver", s "heart", s "genitals",
  s "skin fragment", s "preserved skin", s "preserved_skin",
  s "trophy", s "taxidermy", s "mounted head",
  s "shark fin", s "shark fins", s "shark_fin",
  s "beche-de-mer", s "beche_de_mer",
  s "coral", s "live coral",
  s "live specimen", s "live_specimen", s "live reptile", s "live_reptile",
  s "handicraft", s "ornament", s "jewelry", s "carved ivory", s "carved_horn"]

/-- `ExcelParser._detect_animals` NORMALIZATION_MAP: character-for-character
the same literal dictionary as `AnimalDetector.NORMALIZATION_MAP`. -/
def NORMALIZATION_MAP : List (Str × Str) := Verify.NORMALIZATION_MAP

/-- `desc_lower = description.lower()` (no sentence gating in this
implementation: the whole narrative is scanned). -/
def descLower (d : String) : Str := lowerStr d.data

/-- Standalone-product pass over the whole lowercased narrative. -/
def productFound (d : String) : List Str :=
  PRODUCTS.filter (fun p => containsSub p (descLower d))

/-- Composite pass, same regular expression as the other implementation but
built from this file's lists. -/
def compositeFound (d : String) : List Str :=
  (compositeMatches ANIMALS PRODUCTS (descLower d)).map (fun m => m.1 ++ ' ' :: m.2.2)

/-- Animal/bird pass: word-boundary matches, already normalized at this
stage (`NORMALIZATION_MAP.get(animal, animal.capitalize())`). -/
def animalFound (d : String) : List Str :=
  ((ANIMALS ++ BIRDS).filter (fun a => hasBoundary a (descLower d))).map
    (fun a =>
      match Verify.lookupMap NORMALIZATION_MAP a with
      | some v => v
      | none => capitalizeStr a)

/-- `found_items` as a duplicate-free list (the source stores a `set`). -/
def foundItems (d : String) : List Str :=
  dedupKeepFirst (productFound d ++ compositeFound d ++ animalFound d)

/-- Final mapping of one found item: map value when present, else `title()`. -/
def mapLabel (item : Str) : Str :=
  match Verify.lookupMap NORMALIZATION_MAP item with
  | some v => v
  | none => titleStr item

/-- `final_items` (with duplicates, as the source list before `set`). -/
def finalItems (d : String) : List Str := (foundItems d).map mapLabel

/-- `ExcelParser._detect_animals` up to the final string join: `none` for a
falsy narrative or when nothing was found, otherwise
`sorted(list(set(final_items)))`. -/
def detectAnimalsList (d : String) : Option (List String) :=
  if d.data = [] then none
  else if foundItems d = [] then none
  else some ((sortedDedup (finalItems d)).map (fun cs => String.mk cs))

/-- `ExcelParser._detect_animals` (excel_agent.py, lines 163-350). -/
def detectAnimals (d : String) : Option String :=
  (detectAnimalsList d).map (fun l => String.intercalate ", " l)

end Excel

namespace Utils

/-- The 30-entry canonical district list `ODISHA_DISTRICTS` (utils.py). -/
def ODISHA_DISTRICTS : List Str := [
  s "Angul", s "Balangir", s "Balasore", s "Bargarh", s "Bhadrak", s "Boudh",
  s "Cuttack", s "Deogarh", s "Dhenkanal", s "Gajapati", s "Ganjam",
  s "Jagatsinghpur", s "Jajpur", s "Jharsuguda", s "Kalahandi", s "Kandhamal",
  s "Kendrapara", s "Kendujhar", s "Khordha", s "Koraput", s "Malkangiri",
  s "Mayurbhanj", s "Nabarangpur", s "Nayagarh", s "Nuapada", s "Puri",
  s "Rayagada", s "Sambalpur", s "Subarnapur", s "Sundargarh"]

/-- The alias dictionary `mapping` of `normalize_location_name`, in source
order.  The source lists the key "bhitarkanika" twice with the same value; a
Python dict keeps the first position, so it appears once here. -/
def MAPPING : List (Str × Str) := [
  (s "baleswar", s "Balasore"),
  (s "keonjhar", s "Kendujhar"),
  (s "sonepur", s "Subarnapur"),
  (s "subarnapur", s "Subarnapur"),
  (s "bhubaneswar", s "Khordha"),
  (s "baripada", s "Mayurbhanj"),
  (s "rourkela", s "Sundargarh"),
  (s "berhampur", s "Ganjam"),
  (s "brahmapur", s "Ganjam"),
  (s "similipal", s "Mayurbhanj"),
  (s "bhitarkanika", s "Kendrapara"),
  (s "chilika", s "Khordha"),
  (s "satkosia", s "Angul"),
  (s "nabrangpur", s "Nabarangpur"),
  (s "raigada", s "Rayagada"),
  (s "hirakud", s "Sambalpur"),
  (s "dhenkjanal", s "Dhenkanal")]

/-- `name_lower = name.lower().strip()`. -/
def nameLower (name : String) : Str := stripStr (lowerStr name.data)

/-- Rule (a): exact lookup of the lowercased name among the alias keys. -/
def ruleAliasExact (nl : Str) : Option Str := Verify.lookupMap MAPPING nl

/-- Rule (b): first district whose lowercase form equals the name. -/
def ruleDistrictExact (nl : Str) : Option Str :=
  ODISHA_DISTRICTS.find? (fun d => lowerStr d == nl)

/-- Rule (c): first district whose lowercase form occurs inside the name. -/
def ruleDistrictSub (nl : Str) : Option Str :=
  ODISHA_DISTRICTS.find? (fun d => containsSub (lowerStr d) nl)

/-- Rule (d): first alias key occurring inside the name, yielding its value. -/
def ruleAliasSub (nl : Str) : Option Str :=
  (MAPPING.find? (fun kv => containsSub kv.1 nl)).map (fun kv => kv.2)

/-- `normalize_location_name` (utils.py, lines 98-155): the four rules in
source order, then the title-cased input unchanged. -/
def normalizeLocationName (name : String) : String :=
  if name.data = [] then name
  else
    match ruleAliasExact (nameLower name) with
    | some v => String.mk v
    | none =>
      match ruleDistrictExact (nameLower name) with
      | some d => String.mk d
      | none =>
        match ruleDistrictSub (nameLower name) with
        | some d => String.mk d
        | none =>
          match ruleAliasSub (nameLower name) with
          | some v => String.mk v
          | none => String.mk (titleStr name.data)

end Utils

namespace FilterUtils

/-- `product_indicators` (filter_utils.py). -/
def PRODUCT_INDICATORS : List Str := [
  s "skin", s "skins", s "hide", s "hides", s "scale", s "scales", s "scaly",
  s "horn", s "horns", s "tusk", s "tusks", s "tooth", s "teeth", s "fang", s "fangs",
  s "bone", s "bones", s "meat", s "fur", s "pelt", s "pelts", s "leather",
  s "ivory", s "claw", s "claws", s "tail", s "tails", s "feather", s "feathers",
  s "egg", s "eggs", s "shell", s "shells", s "bile", s "gallbladder",
  s "organ", s "organs", s "blood", s "fat", s "oil", s "powder", s "powdered",
  s "extract", s "extracts", s "medicine", s "medicinal", s "traditional",
  s "carving", s "carvings", s "jewelry", s "jewellery", s "artifact", s "artifacts",
  s "decorative", s "decoration", s "trophy", s "trophies", s "mount", s "mounted"]

/-- Species keywords whose presence inside a candidate validates it. -/
def KNOWN_SPECIES : List Str := [
  s "tiger", s "elephant", s "pangolin", s "turtle", s "snake", s "bird", s "bear",
  s "deer", s "lion", s "cheetah", s "jaguar", s "crocodile", s "shark", s "whale",
  s "dolphin", s "seal", s "otter", s "monkey", s "ape", s "eagle", s "owl", s "parrot"]

/-- Species words accepted as suffix of a multi-word candidate. -/
def SUFFIX_SPECIES : List Str := [
  s "tiger", s "elephant", s "pangolin", s "turtle", s "snake", s "bird", s "bear",
  s "deer", s "lion"]

/-- Generic words excluded from candidate validation. -/
def GENERIC_EXCLUDED : List Str :=
  [s "animal", s "wildlife", s "creature", s "wild", s "exotic"]

/-- Generic words excluded from the first-word fallback. -/
def GENERIC_FALLBACK_EXCLUDED : List Str := [s "animal", s "wildlife", s "creature"]

/-- The validation loop `for i in range(len(words), 0, -1)`: the candidate is
the first `i` words joined by spaces; it is accepted when it is longer than
two characters, not a generic word, and either contains a known species
keyword or (for multi-word candidates) ends with a species word. -/
def validLoop (words : List Str) : Nat → Option Str
  | 0 => none
  | i + 1 =>
    let candidate := joinSpace (words.take (i + 1))
    if candidate.length > 2 ∧ candidate ∉ GENERIC_EXCLUDED then
      if KNOWN_SPECIES.any (fun w => containsSub w candidate) then some (titleStr candidate)
      else if i + 1 > 1 ∧ SUFFIX_SPECIES.any (fun w => isSfx w candidate) then
        some (titleStr candidate)
      else validLoop words i
    else validLoop words i

/-- Processing of the part before the indicator: the validation loop over
word counts, then the fallback to the title-cased first word. -/
def processSplit (speciesPart : Str) : Option Str :=
  let words := splitWs speciesPart
  if words.length ≥ 1 then
    match validLoop words words.length with
    | some r => some r
    | none =>
      let w0 := words.headD []
      if w0.length > 2 ∧ w0 ∉ GENERIC_FALLBACK_EXCLUDED then some (titleStr w0) else none
  else none

/-- One iteration of the indicator loop: when the indicator occurs with a
leading space the part before " indicator" is processed, otherwise when it
occurs with a trailing space the part before "indicator " is processed. -/
def tryIndicator (cl : Str) (ind : Str) : Option Str :=
  if containsSub (' ' :: ind) cl then processSplit (splitBefore (' ' :: ind) cl)
  else if containsSub (ind ++ [' ']) cl then processSplit (splitBefore (ind ++ [' ']) cl)
  else none

/-- The indicator loop: indicators in list order; an iteration that does not
return falls through to the next indicator. -/
def indicatorLoop (cl : Str) : List Str → Option Str
  | [] => none
  | ind :: rest =>
    match tryIndicator cl ind with
    | some r => some r
    | none => indicatorLoop cl rest

/-- `extract_species_from_compound_name` (filter_utils.py, lines 10-63):
the original input is returned unchanged when no iteration returns. -/
def extractSpeciesFromCompoundName (name : String) : String :=
  match indicatorLoop (stripStr (lowerStr name.data)) PRODUCT_INDICATORS with
  | some r => String.mk r
  | none => name

end FilterUtils

namespace Spec

/-- Modelled from the specification text of the Context Selector (spec 4.3):
a sentence qualifies iff it contains, case-insensitively, some context-signal
term or some product term. -/
def qualifiesSpec (sent : Str) : Bool :=
  (Verify.CONTEXT_SIGNALS ++ Verify.PRODUCTS).any (fun t => containsSub t (lowerStr sent))

/-- Modelled from the specification text of the Context Selector (spec 4.3):
split the narrative into sentences on sentence boundaries, keep the
qualifying sentences in original order as the scan text, and fall back to
the entire narrative when no sentence qualifies (all scanning is done on
lowercased text). -/
def contextSelector (d : String) : Str :=
  let parts := (Verify.sentences d).filter qualifiesSpec
  if parts = [] then lowerStr d.data else lowerStr (joinSpace parts)

/-- First successful rule of a rule cascade. -/
def firstSome : List (Option Str) → Option Str
  | [] => none
  | o :: os =>
    match o with
    | some v => some v
    | none => firstSome os

/-- Modelled from the specification text of the Location Normalizer
(spec 4.6): rules (a) alias exact match, (b) district exact match,
(c) district substring containment, (d) alias-key substring containment, in
this order, first successful rule wins; otherwise the title-cased input. -/
def normalizeLocationSpec (name : String) : String :=
  if name.data = [] then name
  else
    match firstSome [Utils.ruleAliasExact (Utils.nameLower name),
                     Utils.ruleDistrictExact (Utils.nameLower name),
                     Utils.ruleDistrictSub (Utils.nameLower name),
                     Utils.ruleAliasSub (Utils.nameLower name)] with
    | some v => String.mk v
    | none => String.mk (titleStr name.data)

end Spec

/-- Example 1 of the verification script in verify_animal_detection.py (the
longer leopard-skins narrative of spec section 8); the script expects the
detection result "Leopard Skins" for it. -/
def exampleOneNarrative : String :=
  "Two men, residents of the Odisha State, were arrested while carrying the leopard skins in a bag and heading towards Sainkula. The first skin is 175cm long and 45 cm wide, the second 152cm long and 36 cm wide. The leopards seem to have been killed in the Similipal National Park, located in the same state. Within its 2,750 km2, the park is home to tigers, elephants, hill myna, and 84 species of orchids. Similipal is also part of UNESCOs world network of biosphere reserves."

/-- The short leopard-skins scenario narrative of spec section 8. -/
def shortLeopardNarrative : String := "Two men were arrested carrying leopard skins."

/-- The elephant-carcass scenario narrative of spec section 8 (example 3 of
the verification script differs only in two inserted clauses; the script
expects the single label "Elephant" there). -/
def carcassNarrative : String :=
  "The decomposing carcass of an elephant was discovered; the tusks had been removed."

/-- A narrative whose first sentence contains a standalone plural "leopards"
and whose second sentence contains the composite "leopard skins". -/
def killedLeopardsNarrative : String :=
  "The leopards were killed. Two men were arrested carrying leopard skins."

/-- A narrative in which the only composite-matcher match has three filler
tokens between the animal term and the product term, while the adjacent
two-word form also occurs later in the same sentence. -/
def tigerFillerNarrative : String := "Officers seized a tiger near a tiger skin."

/-- A short narrative producing both a specific skin label and the generic
"Animal Skin" label in the excel_agent.py implementation. -/
def leopardSkinSeizedNarrative : String := "A leopard skin was seized."

/-! Helper lemmas. -/

theorem isPfx_length {n h : Str} (hp : isPfx n h = true) : n.length ≤ h.length := by
  induction n generalizing h with
  | nil => exact Nat.zero_le _
  | cons a as ih =>
    cases h with
    | nil => simp [isPfx] at hp
    | cons b bs =>
      simp only [isPfx, Bool.and_eq_true] at hp
      simpa using Nat.succ_le_succ (ih hp.2)

theorem isPfx_eq_of_length {n h : Str} (hp : isPfx n h = true) (hl : h.length ≤ n.length) :
    n = h := by
  induction n generalizing h with
  | nil =>
    cases h with
    | nil => rfl
    | cons b bs => simp at hl
  | cons a as ih =>
    cases h with
    | nil => simp [isPfx] at hp
    | cons b bs =>
      simp only [isPfx, Bool.and_eq_true, beq_iff_eq] at hp
      simp only [List.length_cons, Nat.succ_le_succ_iff] at hl
      rw [hp.1, ih hp.2 hl]

theorem containsSub_length {n h : Str} (hc : containsSub n h = true) : n.length ≤ h.length := by
  induction h with
  | nil => exact isPfx_length hc
  | cons c t ih =>
    simp only [containsSub, Bool.or_eq_true] at hc
    rcases hc with hc | hc
    · exact isPfx_length hc
    · exact Nat.le_trans (ih hc) (by simp)

theorem containsSub_eq_of_length {n h : Str} (hc : containsSub n h = true)
    (hl : h.length ≤ n.length) : n = h := by
  induction h with
  | nil => exact isPfx_eq_of_length hc hl
  | cons c t ih =>
    simp only [containsSub, Bool.or_eq_true] at hc
    rcases hc with hc | hc
    · exact isPfx_eq_of_length hc hl
    · have := containsSub_length hc
      simp only [List.length_cons] at hl
      omega

theorem mem_insLen {x y : Str} {l : List Str} : y ∈ insLen x l ↔ y = x ∨ y ∈ l := by
  induction l with
  | nil => simp [insLen]
  | cons z zs ih =>
    by_cases hz : z.length < x.length
    · simp only [insLen, if_pos hz, List.mem_cons]
    · simp only [insLen, if_neg hz, List.mem_cons, ih]
      tauto

theorem mem_sortLen {x : Str} {l : List Str} : x ∈ sortLen l ↔ x ∈ l := by
  induction l with
  | nil => simp [sortLen]
  | cons z zs ih =>
    simp [sortLen, mem_insLen, ih, List.mem_cons]

theorem pairwise_insLen {x : Str} {l : List Str}
    (hl : l.Pairwise (fun a b => b.length ≤ a.length)) :
    (insLen x l).Pairwise (fun a b => b.length ≤ a.length) := by
  induction l with
  | nil => simp [insLen]
  | cons z zs ih =>
    obtain ⟨hz, hzs⟩ := List.pairwise_cons.mp hl
    by_cases h : z.length < x.length
    · simp only [insLen, if_pos h]
      refine List.Pairwise.cons ?_ hl
      intro b hb
      rcases List.mem_cons.mp hb with rfl | hb
      · exact Nat.le_of_lt h
      · exact Nat.le_trans (hz b hb) (Nat.le_of_lt h)
    · simp only [insLen, if_neg h]
      refine List.Pairwise.cons ?_ (ih hzs)
      intro b hb
      rcases mem_insLen.mp hb with rfl | hb
      · exact Nat.le_of_not_lt h
      · exact hz b hb

theorem pairwise_sortLen (l : List Str) :
    (sortLen l).Pairwise (fun a b => b.length ≤ a.length) := by
  induction l with
  | nil => simp [sortLen]
  | cons z zs ih => exact pairwise_insLen ih

theorem uniqueFold_mem {cs : List Str} :
    ∀ {kept : List Str} {x : Str}, x ∈ uniqueFold kept cs → x ∈ kept ∨ x ∈ cs := by
  induction cs with
  | nil =>
    intro kept x hx
    exact Or.inl hx
  | cons c cs ih =>
    intro kept x hx
    simp only [uniqueFold] at hx
    by_cases hany : kept.any (fun e => containsSub c e) = true
    · rw [if_pos hany] at hx
      rcases ih hx with h | h
      · exact Or.inl h
      · exact Or.inr (List.mem_cons_of_mem _ h)
    · rw [if_neg hany] at hx
      rcases ih hx with h | h
      · rcases List.mem_append.mp h with h | h
        · exact Or.inl h
        · simp only [List.mem_singleton] at h
          exact Or.inr (h ▸ List.mem_cons_self c cs)
      · exact Or.inr (List.mem_cons_of_mem _ h)

theorem uniqueFold_pairwise (cs : List Str) :
    ∀ kept : List Str,
      cs.Pairwise (fun a b => b.length ≤ a.length) →
      (∀ x ∈ kept, ∀ y ∈ kept, x ≠ y → containsSub x y = false) →
      (∀ c ∈ cs, ∀ x ∈ kept, c.length ≤ x.length) →
      ∀ x ∈ uniqueFold kept cs, ∀ y ∈ uniqueFold kept cs, x ≠ y →
        containsSub x y = false := by
  induction cs with
  | nil =>
    intro kept _ hkept _ x hx y hy hxy
    exact hkept x hx y hy hxy
  | cons c cs ih =>
    intro kept hsort hkept hcross
    obtain ⟨hc, hsort'⟩ := List.pairwise_cons.mp hsort
    intro x hx y hy hxy
    simp only [uniqueFold] at hx hy
    by_cases hany : kept.any (fun e => containsSub c e) = true
    · rw [if_pos hany] at hx hy
      exact ih kept hsort' hkept
        (fun c' hc' x' hx' => hcross c' (List.mem_cons_of_mem _ hc') x' hx') x hx y hy hxy
    · rw [if_neg hany] at hx hy
      have hall : ∀ e ∈ kept, containsSub c e = false := by
        intro e he
        cases hce : containsSub c e
        · rfl
        · exact absurd (List.any_eq_true.mpr ⟨e, he, hce⟩) hany
      refine ih (kept ++ [c]) hsort' ?_ ?_ x hx y hy hxy
      · intro x' hx' y' hy' hxy'
        rcases List.mem_append.mp hx' with hx' | hx'
        · rcases List.mem_append.mp hy' with hy' | hy'
          · exact hkept x' hx' y' hy' hxy'
          · simp only [List.mem_singleton] at hy'
            rw [hy']
            cases hxc : containsSub x' c
            · rfl
            · have h2 := hcross c (List.mem_cons_self c cs) x' hx'
              exact absurd ((containsSub_eq_of_length hxc h2).trans hy'.symm) hxy'
        · simp only [List.mem_singleton] at hx'
          rcases List.mem_append.mp hy' with hy' | hy'
          · rw [hx']
            exact hall y' hy'
          · simp only [List.mem_singleton] at hy'
            exact absurd (hx'.trans hy'.symm) hxy'
      · intro c' hc' x' hx'
        rcases List.mem_append.mp hx' with hx' | hx'
        · exact hcross c' (List.mem_cons_of_mem _ hc') x' hx'
        · simp only [List.mem_singleton] at hx'
          rw [hx']
          exact hc c' hc'

theorem mem_insLex {x y : Str} {l : List Str} : y ∈ insLex x l ↔ y = x ∨ y ∈ l := by
  induction l with
  | nil => simp [insLex]
  | cons z zs ih =>
    by_cases h1 : x = z
    · simp only [insLex, if_pos h1, List.mem_cons]
      rw [h1]
      tauto
    · by_cases h2 : x < z
      · simp only [insLex, if_neg h1, if_pos h2, List.mem_cons]
      · simp only [insLex, if_neg h1, if_neg h2, List.mem_cons, ih]
        tauto

theorem pairwise_insLex {x : Str} {l : List Str} (hl : l.Pairwise (· < ·)) :
    (insLex x l).Pairwise (· < ·) := by
  induction l with
  | nil => simp [insLex]
  | cons z zs ih =>
    obtain ⟨hz, hzs⟩ := List.pairwise_cons.mp hl
    by_cases h1 : x = z
    · simpa only [insLex, if_pos h1] using hl
    · by_cases h2 : x < z
      · simp only [insLex, if_neg h1, if_pos h2]
        refine List.Pairwise.cons ?_ hl
        intro b hb
        rcases List.mem_cons.mp hb with rfl | hb
        · exact h2
        · exact lt_trans h2 (hz b hb)
      · simp only [insLex, if_neg h1, if_neg h2]
        refine List.Pairwise.cons ?_ (ih hzs)
        intro b hb
        rcases mem_insLex.mp hb with rfl | hb
        · rcases lt_trichotomy b z with h | h | h
          · exact absurd h h2
          · exact absurd h h1
          · exact h
        · exact hz b hb

theorem pairwise_sortedDedup (l : List Str) : (sortedDedup l).Pairwise (· < ·) := by
  induction l with
  | nil => simp [sortedDedup]
  | cons z zs ih => exact pairwise_insLex ih

theorem not_mem_eraseStr {x : Str} {l : List Str} (hl : l.Pairwise (· < ·)) :
    x ∉ eraseStr x l := by
  induction l with
  | nil => simp [eraseStr]
  | cons y ys ih =>
    obtain ⟨hy, hys⟩ := List.pairwise_cons.mp hl
    by_cases h : y = x
    · simp only [eraseStr, if_pos h]
      intro hx
      subst h
      exact lt_irrefl y (hy y hx)
    · simp only [eraseStr, if_neg h]
      intro hx
      rcases List.mem_cons.mp hx with rfl | hx
      · exact h rfl
      · exact ih hys hx

theorem indicatorLoop_none {cl : Str} :
    ∀ inds : List Str,
      (∀ ind ∈ inds, containsSub (' ' :: ind) cl = false ∧
        containsSub (ind ++ [' ']) cl = false) →
      FilterUtils.indicatorLoop cl inds = none := by
  intro inds
  induction inds with
  | nil => intro _; rfl
  | cons ind rest ih =>
    intro h
    obtain ⟨h1, h2⟩ := h ind (List.mem_cons_self ind rest)
    have htry : FilterUtils.tryIndicator cl ind = none := by
      simp [FilterUtils.tryIndicator, h1, h2]
    simp only [FilterUtils.indicatorLoop, htry]
    exact ih (fun i hi => h i (List.mem_cons_of_mem _ hi))

/-! Claim theorems. -/

/-- C1 (amended): the containment invariant holds on the deduplicated raw
candidate set before canonical mapping: a kept candidate is never a
substring of a different kept candidate (all kept candidates are lowercase,
so the plain substring test is the case-insensitive one).  After canonical
mapping the invariant can fail on the final labels, see the
counterexample. -/
theorem unique_candidates_containment_invariant (d : String) (x y : Str)
    (hx : x ∈ Verify.uniqueItems d) (hy : y ∈ Verify.uniqueItems d) (hxy : x ≠ y) :
    containsSub x y = false := by
  have hx' : x ∈ uniqueFold [] (sortLen (Verify.verifiedCandidates d)) := hx
  have hy' : y ∈ uniqueFold [] (sortLen (Verify.verifiedCandidates d)) := hy
  refine uniqueFold_pairwise (sortLen (Verify.verifiedCandidates d)) []
    (pairwise_sortLen _) ?_ ?_ x hx' y hy' hxy
  · intro x' hx''
    simp at hx''
  · intro c _ x' hx''
    simp at hx''

/-- C1 witness: the containment invariant on kept candidates instantiated at
the short leopard-skins narrative, whose kept candidates are "leopard skin"
and "skins". -/
theorem unique_candidates_containment_invariant_witness :
    containsSub (s "skins") (s "leopard skin") = false :=
  unique_candidates_containment_invariant shortLeopardNarrative (s "skins") (s "leopard skin")
    (by decide) (by decide) (by decide)

/-- C1 counterexample: on `killedLeopardsNarrative` the final returned label
list is ["Leopard", "Leopard Skin"], and the lowercase form of the first
label is a substring of the lowercase form of the second, so the containment
invariant claimed for the final result (after canonical mapping) fails. -/
theorem final_labels_containment_violation :
    Verify.detectList killedLeopardsNarrative = some ["Leopard", "Leopard Skin"] ∧
    containsSub (lowerStr (s "Leopard")) (lowerStr (s "Leopard Skin")) = true ∧
    (s "Leopard" : Str) ≠ s "Leopard Skin" :=
  ⟨by decide, by decide, by decide⟩

set_option maxRecDepth 100000 in
set_option maxHeartbeats 2000000 in
/-- C2: evaluation of AnimalDetector.detect on both leopard-skins
narratives.  On the short narrative the result is exactly ["Leopard Skin"]
(a composite label, singular because the product alternation matches the
literal "skin" inside "skins", and with no bare "Leopard").  On the longer
narrative of example 1 of the script the result also contains a bare
"Leopard" coming from the standalone "leopards" of a later sentence,
contradicting the claim and the expected output "Leopard Skins" recorded in
the script itself. -/
theorem leopard_skins_detection_results :
    Verify.detectList shortLeopardNarrative = some ["Leopard Skin"] ∧
    Verify.detectList exampleOneNarrative = some ["Leopard", "Leopard Skin"] :=
  ⟨by decide, by decide⟩

/-- C3 counterexample: the two detector implementations disagree on the
short leopard-skins narrative: the standalone class returns "Leopard Skin"
while the excel_agent.py method returns
"Animal Skin, Leopard, Leopard Skin". -/
theorem detectors_disagree_on_leopard_narrative :
    Verify.detect shortLeopardNarrative ≠ Excel.detectAnimals shortLeopardNarrative := by
  decide

/-- C3 (amended): the two detector implementations do not produce the same
label set on every narrative (they differ on the short leopard-skins
narrative, since only the standalone class performs containment dedup and
generic-skin suppression), but on the elephant-tusks-removed narrative they
do return the same result. -/
theorem detectors_agree_on_elephant_tusks_narrative :
    Verify.detect carcassNarrative = Excel.detectAnimals carcassNarrative ∧
    Verify.detect shortLeopardNarrative ≠ Excel.detectAnimals shortLeopardNarrative :=
  ⟨by decide, by decide⟩

/-- C4: evaluation of AnimalDetector.detect at the elephant-carcass
narrative: the result is ["Asian Elephant", "Carcass", "Ivory"], not the
single label ["Asian Elephant"] stated by the claim and expected by the
script (its example 3 expects a single elephant label): the
standalone-product pass also surfaces "carcass" (title-cased) and "tusks"
(mapped to "Ivory").  The second conjunct confirms the claim is right that
no composite label is produced, "tusks" being outside the 0-to-3-token
window from "elephant". -/
theorem elephant_carcass_detection_result :
    Verify.detectList carcassNarrative = some ["Asian Elephant", "Carcass", "Ivory"] ∧
    Verify.compositeCandidates carcassNarrative = [] :=
  ⟨by decide, by decide⟩

/-- C5: both detector implementations return the absent result (Python None,
modelled as `none`) on the empty narrative, via the same falsy-input branch
that handles a Python None narrative; neither raises, the embedding being a
total function mirroring sources that have no raising path. -/
theorem empty_input_yields_no_result :
    Verify.detect "" = none ∧ Verify.detectList "" = none ∧
    Excel.detectAnimals "" = none ∧ Excel.detectAnimalsList "" = none :=
  ⟨rfl, rfl, rfl, rfl⟩

/-- C6: the Context Selector of AnimalDetector.detect behaves exactly as
specified: the narrative is split into sentences on sentence boundaries, a
sentence qualifies iff it contains (case-insensitively) some context-signal
term or some product term, the scan text is the concatenation of the
qualifying sentences in original order, and the entire narrative is scanned
when no sentence qualifies. -/
theorem context_selector_matches_spec (d : String) :
    Verify.textToScan d = Spec.contextSelector d := by
  have hq : Verify.qualifies = Spec.qualifiesSpec := by
    funext sent
    simp [Verify.qualifies, Spec.qualifiesSpec, List.any_append]
  simp [Verify.textToScan, Verify.relevantParts, Spec.contextSelector, hq]

/-- C7 (amended): generic-label suppression holds for AnimalDetector.detect:
whenever the mapped label set contains some label containing "Skin" other
than "Animal Skin", the final result does not contain "Animal Skin".  The
ExcelParser._detect_animals implementation has no such post-pass, see the
counterexample. -/
theorem detect_suppresses_generic_skin (d : String)
    (h : ∃ x ∈ Verify.sortedFinal d,
      containsSub (s "Skin") x = true ∧ x ≠ s "Animal Skin") :
    s "Animal Skin" ∉ Verify.resultList d := by
  have hspec : Verify.hasSpecificSkin (Verify.sortedFinal d) = true := by
    obtain ⟨x, hx, h1, h2⟩ := h
    refine List.any_eq_true.mpr ⟨x, hx, ?_⟩
    rw [h1]
    simp [h2]
  unfold Verify.resultList
  by_cases hmem : s "Animal Skin" ∈ Verify.sortedFinal d
  · rw [if_pos ⟨hspec, hmem⟩]
    exact not_mem_eraseStr (pairwise_sortedDedup (Verify.finalOutput d))
  · rw [if_neg (fun hc => hmem hc.2)]
    exact hmem

/-- C7 witness: the suppression theorem applied at the short leopard-skins
narrative, whose mapped label set is ["Animal Skin", "Leopard Skin"]. -/
theorem detect_suppresses_generic_skin_witness :
    s "Animal Skin" ∉ Verify.resultList shortLeopardNarrative :=
  detect_suppresses_generic_skin shortLeopardNarrative
    ⟨s "Leopard Skin", by decide, by decide, by decide⟩

/-- C7 counterexample: the excel_agent.py implementation keeps the generic
"Animal Skin" next to the specific "Leopard Skin", because it has no
generic-skin suppression pass. -/
theorem excel_detector_keeps_generic_skin :
    Excel.detectAnimalsList leopardSkinSeizedNarrative
      = some ["Animal Skin", "Leopard", "Leopard Skin"] := by
  decide

/-- C8: normalize_location_name tries, in order, (a) exact alias-map lookup,
(b) exact district match, (c) substring containment of a district name in
the input, (d) substring containment of an alias key in the input, the first
successful rule winning, and returns the title-cased input unchanged
otherwise; in particular "Rourkela" normalizes to "Sundargarh" and
"Random City" is returned unchanged. -/
theorem normalize_location_matches_spec :
    (∀ name : String, Utils.normalizeLocationName name = Spec.normalizeLocationSpec name) ∧
    Utils.normalizeLocationName "Rourkela" = "Sundargarh" ∧
    Utils.normalizeLocationName "Random City" = "Random City" := by
  refine ⟨?_, by decide, by decide⟩
  intro name
  by_cases h0 : name.data = []
  · simp [Utils.normalizeLocationName, Spec.normalizeLocationSpec, h0]
  · simp only [Utils.normalizeLocationName, Spec.normalizeLocationSpec,
      Spec.firstSome, if_neg h0]
    cases Utils.ruleAliasExact (Utils.nameLower name) <;>
      cases Utils.ruleDistrictExact (Utils.nameLower name) <;>
        cases Utils.ruleDistrictSub (Utils.nameLower name) <;>
          cases Utils.ruleAliasSub (Utils.nameLower name) <;> rfl

/-- C9 (amended): the compound-name splitter scans for product indicators
surrounded by a space; when none occurs the input is returned unchanged;
when one occurs, the tokens before it are validated against the species
whitelist, but a failed validation falls back to the title-cased first token
(when longer than two characters and not a generic word) instead of
returning the input unchanged.  "tiger skin" maps to "Tiger", "tiger" is
unchanged, and the whitelist-failing "fox skin" maps to "Fox". -/
theorem compound_splitter_behavior :
    (∀ name : String,
      (∀ ind ∈ FilterUtils.PRODUCT_INDICATORS,
          containsSub (' ' :: ind) (stripStr (lowerStr name.data)) = false ∧
          containsSub (ind ++ [' ']) (stripStr (lowerStr name.data)) = false) →
        FilterUtils.extractSpeciesFromCompoundName name = name) ∧
    FilterUtils.extractSpeciesFromCompoundName "tiger skin" = "Tiger" ∧
    FilterUtils.extractSpeciesFromCompoundName "tiger" = "tiger" ∧
    FilterUtils.extractSpeciesFromCompoundName "fox skin" = "Fox" := by
  refine ⟨?_, by decide, by decide, by decide⟩
  intro name h
  unfold FilterUtils.extractSpeciesFromCompoundName
  rw [indicatorLoop_none FilterUtils.PRODUCT_INDICATORS h]

/-- C9 witness: the no-indicator branch of the splitter instantiated at the
one-word input "lion". -/
theorem compound_splitter_behavior_witness :
    FilterUtils.extractSpeciesFromCompoundName "lion" = "lion" :=
  compound_splitter_behavior.1 "lion" (by decide)

/-- C9 counterexample: "fox skin" contains the indicator "skin" and the
species candidate "fox" fails the whitelist validation, yet the input is not
returned unchanged: the first-token fallback returns "Fox". -/
theorem compound_splitter_fox_skin :
    FilterUtils.extractSpeciesFromCompoundName "fox skin" = "Fox" ∧
    ("Fox" : String) ≠ "fox skin" :=
  ⟨by decide, by decide⟩

/-- C10 (amended): a composite candidate survives into the deduplicated
candidate set only when its two-word string, the animal term followed by a
single space and the product term, occurs literally somewhere in the scan
text: the verification filter tests literal occurrence anywhere, not at the
match site, so a candidate built from a match with filler tokens is not
always removed, see the counterexample. -/
theorem composite_in_result_occurs_adjacent (d : String) (a p : Str)
    (_ha : a ∈ Verify.ANIMALS) (_hp : p ∈ Verify.PRODUCTS)
    (hmem : (a ++ ' ' :: p) ∈ Verify.uniqueItems d) :
    containsSub (a ++ ' ' :: p) (Verify.textToScan d) = true := by
  have h1 : (a ++ ' ' :: p) ∈ uniqueFold [] (sortLen (Verify.verifiedCandidates d)) := hmem
  rcases uniqueFold_mem h1 with h | h
  · simp at h
  · exact (List.mem_filter.mp (mem_sortLen.mp h)).2

/-- C10 witness: at `tigerFillerNarrative` the composite candidate
"tiger skin" is kept and its two-word string occurs in the scan text. -/
theorem composite_in_result_occurs_adjacent_witness :
    containsSub (s "tiger" ++ ' ' :: s "skin")
      (Verify.textToScan tigerFillerNarrative) = true :=
  composite_in_result_occurs_adjacent tigerFillerNarrative (s "tiger") (s "skin")
    (by decide) (by decide) (by decide)

/-- C10 counterexample: on `tigerFillerNarrative` the only composite-matcher
match has three filler tokens between "tiger" and "skin", yet the candidate
"tiger skin" built from it is not removed by the verification filter: it
survives into the deduplicated candidate set, because the adjacent two-word
occurrence later in the sentence makes the literal check succeed. -/
theorem composite_with_fillers_survives :
    compositeMatches Verify.ANIMALS Verify.PRODUCTS (Verify.textToScan tigerFillerNarrative)
      = [(s "tiger", 3, s "skin")] ∧
    (s "tiger" ++ ' ' :: s "skin") ∈ Verify.uniqueItems tigerFillerNarrative :=
  ⟨by decide, by decide⟩

end AnimalDetection
